import Mathlib

/-!
A shallow embedding of `pkg/server/server.go` of the k8sgpt repository:
the protocol-multiplexing API gateway (gRPC/REST multiplexer, metrics
server, and the Alertmanager webhook adapter), together with proofs of
the behavioural properties of its handlers.

Go strings become `String`, Go maps (`models.LabelSet`,
`models.Annotations`) become association lists with Go's
lookup/overwrite semantics, fallible Go calls become `Except`/`Option`
values, and the effectful steps of `Serve` (binding the listener,
gateway registration, the blocking serve calls) are injected as an
environment record so that the control flow of the function is the
object of study.
-/

set_option autoImplicit false
set_option linter.unusedVariables false

namespace K8sgpt

/-- `strings.Contains s sub`: `sub` occurs as a contiguous substring of `s`. -/
def stringContains (s sub : String) : Bool :=
  decide (sub.toList <:+: s.toList)

/-- An incoming HTTP request as seen by the protocol multiplexer:
`r.ProtoMajor`, the `Content-Type` header value, and other fields the
multiplexer does not inspect (kept to state that routing ignores them). -/
structure HttpRequest where
  protoMajor : Nat
  contentType : String
  path : String
  body : String
deriving DecidableEq

/-- The two delegates of `grpcHandlerFunc`: the gRPC server or the fallback
(`otherHandler`, the REST gateway mux when HTTP is enabled). -/
inductive MuxRoute where
  | grpcDispatcher
  | fallback
deriving DecidableEq

/-- `grpcHandlerFunc` (server.go:84-92): route to the gRPC server iff
`r.ProtoMajor == 2 && strings.Contains(r.Header.Get("Content-Type"), "application/grpc")`,
otherwise to the fallback handler. -/
def grpcHandlerFunc (r : HttpRequest) : MuxRoute :=
  if r.protoMajor = 2 ∧ stringContains r.contentType "application/grpc" = true then
    MuxRoute.grpcDispatcher
  else
    MuxRoute.fallback

/-- The package-level `Health` struct (server.go:65-69). -/
structure Health where
  status : String
  success : Int
  failure : Int
deriving DecidableEq

/-- The package-level `health` variable initial value (server.go:72-76). -/
def healthInit : Health := { status := "ok", success := 0, failure := 0 }

/-- The response produced by the metrics server handler for one request:
the explicitly written status code (if any), the body written by the
handler itself, and whether the request was delegated to the Prometheus
exposition handler (`promhttp.Handler()`), an external collaborator. -/
structure MetricsResponse where
  status : Option Nat
  body : String
  delegated : Bool
deriving DecidableEq

/-- The `ServeMetrics` request handler closure (server.go:154-163).  The
handler reads nothing but the request path; the `Health` argument (the
package-level health snapshot) and the backend name are passed only to
record that the routing is independent of them. -/
def serveMetricsHandler (hl : Health) (backend : String) (path : String) : MetricsResponse :=
  if path = "/healthz" then
    { status := some 200, body := "", delegated := false }
  else if path = "/metrics" then
    { status := none, body := "", delegated := true }
  else
    { status := some 404, body := "", delegated := false }

/-! ## The Alertmanager webhook adapter (`ServeAlerts`, server.go:170-221) -/

/-- Go map lookup `m[k]` on an association list (first binding wins). -/
def assocGet (m : List (String × String)) (k : String) : Option String :=
  match m with
  | [] => none
  | (k1, v1) :: rest => if k1 = k then some v1 else assocGet rest k

/-- Go map assignment `m[k] = v` on an association list: overwrite the
binding for `k` if present, otherwise append it. -/
def assocSet (m : List (String × String)) (k v : String) : List (String × String) :=
  match m with
  | [] => [(k, v)]
  | (k1, v1) :: rest => if k1 = k then (k, v) :: rest else (k1, v1) :: assocSet rest k v

/-- A `models.PostableAlert` as the adapter consumes it: a label map
(possibly holding a `"namespace"` key) and a mutable annotation map. -/
structure Alert where
  labels : List (String × String)
  annotations : List (String × String)
deriving DecidableEq

/-- One `schemav1.Result` of an `AnalyzeResponse`; only `Details` is read. -/
structure AnalysisResult where
  details : String
deriving DecidableEq

/-- A `schemav1.AnalyzeResponse`: the ordered `Results` sequence. -/
structure AnalyzeResponse where
  results : List AnalysisResult
deriving DecidableEq

/-- A `schemav1.AnalyzeRequest` (the fields `ServeAlerts` populates;
`ns` embeds the proto field `Namespace`, whose zero value is `""`). -/
structure AnalyzeRequest where
  backend : String
  language : String
  filters : List String
  ns : String
  nocache : Bool
  explain : Bool
deriving DecidableEq

/-- The inputs of one webhook call: the four URL query parameters
(`backend`, `language`, repeated `filters`, `annotation` — `params.Get`
yields `""` for an absent parameter) and the outcome of JSON-decoding the
request body into a `models.PostableAlerts` slice.  The decoder is
external (`encoding/json`), so its outcome is part of the input. -/
structure AlertsHttpRequest where
  backend : String
  language : String
  filters : List String
  annotationKey : String
  decodedBody : Except String (List Alert)

/-- The `analyzeRequest` value built from the URL parameters before the
alert loop (server.go:179-186): `Nocache` and `Explain` are forced true,
`Namespace` starts at its zero value. -/
def baseRequest (q : AlertsHttpRequest) : AnalyzeRequest :=
  { backend := q.backend, language := q.language, filters := q.filters,
    ns := "", nocache := true, explain := true }

/-- `if namespace, ok := alert.Labels["namespace"]; ok { analyzeRequest.Namespace = namespace }`
(server.go:202-204): the shared request is updated only when the label exists. -/
def updateNs (req : AnalyzeRequest) (a : Alert) : AnalyzeRequest :=
  match assocGet a.labels "namespace" with
  | some v => { req with ns := v }
  | none => req

/-- `alert.Annotations[annotation] = result.Details` folded over
`resp.Results` in order (server.go:209-211). -/
def writeResults (annots : List (String × String)) (k : String) :
    List AnalysisResult → List (String × String)
  | [] => annots
  | r :: rs => writeResults (assocSet annots k r.details) k rs

/-- The in-place mutation a successful analysis applies to one alert. -/
def mutateAlert (k : String) (resp : AnalyzeResponse) (a : Alert) : Alert :=
  { a with annotations := writeResults a.annotations k resp.results }

/-- What the alert loop produced: the final state of every alert of the
batch (mutated or not), the `AnalyzeRequest` values passed to
`s.AnalyzeHandler.Analyze` in call order, and the error text written to
the response if an analysis call failed. -/
structure LoopResult where
  alertsOut : List Alert
  calls : List AnalyzeRequest
  errMsg : Option String
deriving DecidableEq

/-- The `for _, alert := range alerts` loop (server.go:201-213).  `analyze`
stands for `s.AnalyzeHandler.Analyze` (an external service contract);
`req` is the single `analyzeRequest` object shared across iterations.
On an analysis error the handler writes `"analyze. err: ..."` and
returns, leaving the current and all later alerts untouched. -/
def alertLoop (analyze : AnalyzeRequest → Except String AnalyzeResponse)
    (k : String) (req : AnalyzeRequest) : List Alert → LoopResult
  | [] => { alertsOut := [], calls := [], errMsg := none }
  | a :: rest =>
    let r := updateNs req a
    match analyze r with
    | Except.error e =>
        { alertsOut := a :: rest, calls := [r],
          errMsg := some ("analyze. err: " ++ e) }
    | Except.ok resp =>
        let out := alertLoop analyze k r rest
        { alertsOut := mutateAlert k resp a :: out.alertsOut,
          calls := r :: out.calls, errMsg := out.errMsg }

/-- The observable outcome of one webhook call: the text written to the
response body (`""` when nothing is written), the explicitly set HTTP
status (the handler never calls `WriteHeader`, so always `none`), the
analysis calls issued, and the final alert states. -/
structure AlertsResult where
  responseBody : String
  explicitStatus : Option Nat
  calls : List AnalyzeRequest
  alertsOut : List Alert
deriving DecidableEq

/-- The `ServeAlerts` request handler closure (server.go:174-216).
On a decode error it writes `"decode alerts. err: ..."` and returns
without calling the analysis service; otherwise it runs the alert loop. -/
def serveAlerts (analyze : AnalyzeRequest → Except String AnalyzeResponse)
    (q : AlertsHttpRequest) : AlertsResult :=
  match q.decodedBody with
  | Except.error e =>
      { responseBody := "decode alerts. err: " ++ e, explicitStatus := none,
        calls := [], alertsOut := [] }
  | Except.ok alerts =>
      let out := alertLoop analyze q.annotationKey (baseRequest q) alerts
      { responseBody := out.errMsg.getD "", explicitStatus := none,
        calls := out.calls, alertsOut := out.alertsOut }

/-- The namespace values the shared request would carry per alert, as a
sequence: an alert's own `"namespace"` label when present, otherwise the
value left behind by the previous alerts (`cur` initially). -/
def stickyNs (cur : String) : List Alert → List String
  | [] => []
  | a :: rest =>
      let n := (assocGet a.labels "namespace").getD cur
      n :: stickyNs n rest

/-- The per-alert request sequence the loop derives when it runs to alert
`i`: each alert's request is the previous one updated by `updateNs`. -/
def reqSeq (req : AnalyzeRequest) : List Alert → List AnalyzeRequest
  | [] => []
  | a :: rest =>
      let r := updateNs req a
      r :: reqSeq r rest

/-! ## The primary API server lifecycle (`Serve`, `Shutdown`, server.go:78-146) -/

/-- A Go `error` value as the serve calls produce it, distinguishing the
sentinel `http.ErrServerClosed` that `errors.Is` tests for. -/
inductive GoError where
  | errServerClosed
  | other (msg : String)
deriving DecidableEq

/-- The state of the owned `net.Listener`: whether `Close` has been called.
Modelled on the documented Go `net` semantics: `Close` marks the listener
closed, any later `Accept` (and a second `Close`) fails with a
use-of-closed error but does not panic. -/
structure ListenerState where
  closed : Bool
deriving DecidableEq

/-- `lis.Accept()` on the owned listener: fails once the listener is closed. -/
def acceptOn (l : ListenerState) : Except GoError Unit :=
  if l.closed then Except.error (GoError.other "use of closed network connection") else Except.ok ()

/-- A handler value stored in `Config.ConfigHandler` / `Config.AnalyzeHandler`:
either the freshly constructed empty instance `Serve` installs
(`&config.Handler{}` / `&analyze.Handler{}`) or an instance supplied by the
caller before `Serve` ran (distinguished by an arbitrary tag). -/
inductive HandlerVal where
  | emptyFresh
  | supplied (tag : Nat)
deriving DecidableEq

/-- The `Config` struct (server.go:48-63): configuration fields plus the
owned handles.  `Option` models Go `nil` for the pointer-typed fields;
the zero-value `Config` has them all `none`. -/
structure ConfigState where
  port : String
  metricsPort : String
  alertmanagerPort : String
  backend : String
  key : String
  token : String
  output : String
  configHandler : Option HandlerVal
  analyzeHandler : Option HandlerVal
  listener : Option ListenerState
  enableHttp : Bool
deriving DecidableEq

/-- The zero-value `Config` (no handlers installed, no listener bound). -/
def defaultConfig : ConfigState :=
  { port := "", metricsPort := "", alertmanagerPort := "", backend := "",
    key := "", token := "", output := "", configHandler := none,
    analyzeHandler := none, listener := none, enableHttp := false }

/-- Outcomes of the external calls `Serve` makes, injected as inputs:
the `net.Listen` bind, the two grpc-gateway registrations (REST mode
only), and the blocking serve call of whichever branch runs
(`none` = returned `nil`). -/
structure ServeEnv where
  bindResult : Option GoError
  gwRegisterConfig : Option String
  gwRegisterAnalyzer : Option String
  httpServeResult : Option GoError
  grpcServeResult : Option GoError
deriving DecidableEq

/-- How a run of `Serve` ends: either `log.Fatalln` aborts the whole
process (no value is returned to the caller), or `Serve` returns, with
`none` standing for the `nil` error. -/
inductive ServeOutcome where
  | fatalExit (msg : String)
  | returned (e : Option GoError)
deriving DecidableEq

/-- `(s *Config) Serve()` (server.go:94-146) as a function of the injected
effect outcomes, returning how the call ends together with the updated
`Config` state.  Control flow mirrors the source: a bind error returns
immediately (before the handler fields are assigned); otherwise both
handler fields are overwritten with fresh empty instances and the
listener stored; in REST mode a failed gateway registration is
`log.Fatalln`, and `srv.Serve` errors are returned as-is; in gRPC-only
mode a serve error is returned unless `errors.Is(err, http.ErrServerClosed)`. -/
def serve (cfg : ConfigState) (env : ServeEnv) : ServeOutcome × ConfigState :=
  match env.bindResult with
  | some e => (ServeOutcome.returned (some e), cfg)
  | none =>
    let cfg1 : ConfigState :=
      { cfg with configHandler := some HandlerVal.emptyFresh,
                 analyzeHandler := some HandlerVal.emptyFresh,
                 listener := some { closed := false } }
    if cfg.enableHttp then
      match env.gwRegisterConfig with
      | some e => (ServeOutcome.fatalExit ("Failed to register gateway: " ++ e), cfg1)
      | none =>
        match env.gwRegisterAnalyzer with
        | some e => (ServeOutcome.fatalExit ("Failed to register gateway: " ++ e), cfg1)
        | none =>
          match env.httpServeResult with
          | some e => (ServeOutcome.returned (some e), cfg1)
          | none => (ServeOutcome.returned none, cfg1)
    else
      match env.grpcServeResult with
      | some e =>
          if e = GoError.errServerClosed then (ServeOutcome.returned none, cfg1)
          else (ServeOutcome.returned (some e), cfg1)
      | none => (ServeOutcome.returned none, cfg1)

/-- `(s *Config) Shutdown()` (server.go:78-80): `return s.listener.Close()`.
`none` is the Go panic of calling `Close` through a nil listener (a
`Config` on which `Serve` never bound one); otherwise the listener is
marked closed and `Close` returns an error only when it already was. -/
def shutdown (cfg : ConfigState) : Option (ConfigState × Option GoError) :=
  match cfg.listener with
  | none => none
  | some l =>
      some ({ cfg with listener := some { closed := true } },
            if l.closed then some (GoError.other "use of closed network connection") else none)

/-- The analysis function the webhook adapter would run with, given a
semantics `sem` for handler instances: `ServeAlerts` calls
`s.AnalyzeHandler.Analyze`, so it dispatches through the Config's
`AnalyzeHandler` field (`none` when no handler is installed). -/
def webhookAnalyzeFn (sem : HandlerVal → AnalyzeRequest → Except String AnalyzeResponse)
    (cfg : ConfigState) : Option (AnalyzeRequest → Except String AnalyzeResponse) :=
  cfg.analyzeHandler.map sem

/-- What the claim "batch processing aborts on analysis failure" amounts
to for one run of `serveAlerts` whose loop stopped with error text `msg`:
the error text is the response body and has the `analyze. err:` shape;
the calls issued are the per-alert derived requests in batch order, cut
off at the abort; at least one and at most `alerts.length` calls were
made; every alert keeps a slot in the output; the failing alert and all
later ones are untouched; and every earlier alert was analyzed
successfully and carries its annotation mutation (not rolled back). -/
def batchAbortSpec (analyze : AnalyzeRequest → Except String AnalyzeResponse)
    (q : AlertsHttpRequest) (alerts : List Alert) (msg : String) : Prop :=
  (serveAlerts analyze q).responseBody = msg ∧
  (∃ e, msg = "analyze. err: " ++ e) ∧
  (serveAlerts analyze q).calls
    = (reqSeq (baseRequest q) alerts).take ((serveAlerts analyze q).calls.length) ∧
  1 ≤ (serveAlerts analyze q).calls.length ∧
  (serveAlerts analyze q).calls.length ≤ alerts.length ∧
  (serveAlerts analyze q).alertsOut.length = alerts.length ∧
  (∀ j, (serveAlerts analyze q).calls.length - 1 ≤ j →
    (serveAlerts analyze q).alertsOut[j]? = alerts[j]?) ∧
  (∀ j, j + 1 < (serveAlerts analyze q).calls.length →
    ∃ a r resp, alerts[j]? = some a ∧
      (serveAlerts analyze q).calls[j]? = some r ∧
      analyze r = Except.ok resp ∧
      (serveAlerts analyze q).alertsOut[j]? = some (mutateAlert q.annotationKey resp a))

/-! ## Concrete instances used to exercise the theorems -/

/-- An alert whose labels carry `"namespace" = v` and no annotations. -/
def nsAlert (v : String) : Alert := { labels := [("namespace", v)], annotations := [] }

/-- An alert with no labels at all. -/
def bareAlert : Alert := { labels := [], annotations := [] }

/-- An analysis service that always succeeds with no results. -/
def okEmptyAnalyze : AnalyzeRequest → Except String AnalyzeResponse :=
  fun _ => Except.ok { results := [] }

/-- A webhook call whose batch is an alert with namespace label `"ns1"`
followed by an alert carrying no namespace label. -/
def c2Request : AlertsHttpRequest :=
  { backend := "openai", language := "", filters := [], annotationKey := "summary",
    decodedBody := Except.ok [nsAlert "ns1", bareAlert] }

/-- A webhook call whose body failed to decode. -/
def badBodyRequest : AlertsHttpRequest :=
  { backend := "openai", language := "", filters := [], annotationKey := "summary",
    decodedBody := Except.error "invalid character" }

/-- An analysis service that fails exactly on namespace `"bad"`. -/
def failOnBad : AnalyzeRequest → Except String AnalyzeResponse :=
  fun r => if r.ns = "bad" then Except.error "boom"
    else Except.ok { results := [{ details := "ok" }] }

/-- A two-alert batch whose second alert triggers the failing analysis. -/
def c5Request : AlertsHttpRequest :=
  { backend := "openai", language := "", filters := [], annotationKey := "summary",
    decodedBody := Except.ok [nsAlert "good", nsAlert "bad"] }

/-- An analysis service returning two results; the second must win. -/
def twoResultAnalyze : AnalyzeRequest → Except String AnalyzeResponse :=
  fun _ => Except.ok
    { results := [{ details := "first" }, { details := "pod crashlooping" }] }

/-- An alert that already has a value under the `summary` annotation key. -/
def c6Alert : Alert :=
  { labels := [("namespace", "prod")], annotations := [("summary", "old")] }

/-- A single-alert webhook call for the overwrite scenario. -/
def c6Request : AlertsHttpRequest :=
  { backend := "openai", language := "", filters := [], annotationKey := "summary",
    decodedBody := Except.ok [c6Alert] }

/-- A `Config` with REST-gateway mode enabled. -/
def httpModeConfig : ConfigState := { defaultConfig with enableHttp := true }

/-- An environment where everything succeeds and the HTTP serve call
ends with the `http.ErrServerClosed` sentinel. -/
def closedHttpEnv : ServeEnv :=
  { bindResult := none, gwRegisterConfig := none, gwRegisterAnalyzer := none,
    httpServeResult := some GoError.errServerClosed, grpcServeResult := none }

/-- An environment where the gRPC serve call ends with the sentinel. -/
def grpcClosedEnv : ServeEnv :=
  { bindResult := none, gwRegisterConfig := none, gwRegisterAnalyzer := none,
    httpServeResult := none, grpcServeResult := some GoError.errServerClosed }

/-- An environment where every injected call succeeds. -/
def allOkEnv : ServeEnv :=
  { bindResult := none, gwRegisterConfig := none, gwRegisterAnalyzer := none,
    httpServeResult := none, grpcServeResult := none }

/-- An environment where the first gateway registration fails. -/
def gwFailEnv : ServeEnv :=
  { bindResult := none, gwRegisterConfig := some "connection refused",
    gwRegisterAnalyzer := none, httpServeResult := none, grpcServeResult := none }

/-- A `Config` carrying caller-supplied handler implementations. -/
def suppliedConfig : ConfigState :=
  { defaultConfig with
    configHandler := some (HandlerVal.supplied 8),
    analyzeHandler := some (HandlerVal.supplied 7) }

/-- An environment where the `net.Listen` bind fails. -/
def bindFailEnv : ServeEnv :=
  { bindResult := some (GoError.other "listen tcp: address already in use"),
    gwRegisterConfig := none, gwRegisterAnalyzer := none,
    httpServeResult := none, grpcServeResult := none }

/-! ## Helper lemmas about the webhook loop -/

theorem updateNs_ns (req : AnalyzeRequest) (a : Alert) :
    (updateNs req a).ns = (assocGet a.labels "namespace").getD req.ns := by
  unfold updateNs
  cases assocGet a.labels "namespace" <;> rfl

theorem reqSeq_map_ns (alerts : List Alert) :
    ∀ req : AnalyzeRequest,
      (reqSeq req alerts).map AnalyzeRequest.ns = stickyNs req.ns alerts := by
  induction alerts with
  | nil => intro req; rfl
  | cons a rest ih =>
    intro req
    simp only [reqSeq, stickyNs, List.map_cons]
    rw [ih (updateNs req a), updateNs_ns]

theorem alertLoop_calls_take (analyze : AnalyzeRequest → Except String AnalyzeResponse)
    (k : String) (alerts : List Alert) :
    ∀ req : AnalyzeRequest,
      (alertLoop analyze k req alerts).calls
        = (reqSeq req alerts).take (alertLoop analyze k req alerts).calls.length := by
  induction alerts with
  | nil => intro req; rfl
  | cons a rest ih =>
    intro req
    cases h : analyze (updateNs req a) with
    | error e => simp [alertLoop, reqSeq, h]
    | ok resp =>
      simp only [alertLoop, reqSeq, h, List.length_cons, List.take_succ_cons,
        List.cons.injEq, true_and]
      exact ih (updateNs req a)

theorem alertLoop_ok_at (analyze : AnalyzeRequest → Except String AnalyzeResponse)
    (k : String) (alerts : List Alert) :
    ∀ (req : AnalyzeRequest) (j : Nat) (a : Alert) (r : AnalyzeRequest)
      (resp : AnalyzeResponse),
      alerts[j]? = some a →
      (alertLoop analyze k req alerts).calls[j]? = some r →
      analyze r = Except.ok resp →
      (alertLoop analyze k req alerts).alertsOut[j]? = some (mutateAlert k resp a) := by
  induction alerts with
  | nil =>
    intro req j a r resp ha hr hok
    simp [alertLoop] at hr
  | cons a0 rest ih =>
    intro req j a r resp ha hr hok
    cases h : analyze (updateNs req a0) with
    | error e =>
      simp only [alertLoop, h] at hr
      cases j with
      | zero =>
        simp only [List.getElem?_cons_zero, Option.some.injEq] at hr
        subst hr
        rw [h] at hok
        cases hok
      | succ j2 =>
        simp at hr
    | ok resp0 =>
      cases j with
      | zero =>
        simp only [List.getElem?_cons_zero, Option.some.injEq] at ha
        simp only [alertLoop, h, List.getElem?_cons_zero, Option.some.injEq] at hr
        subst ha
        subst hr
        rw [h] at hok
        cases hok
        simp [alertLoop, h]
      | succ j2 =>
        simp only [List.getElem?_cons_succ] at ha
        simp only [alertLoop, h, List.getElem?_cons_succ] at hr
        simp only [alertLoop, h, List.getElem?_cons_succ]
        exact ih (updateNs req a0) j2 a r resp ha hr hok

theorem assocGet_assocSet_self (m : List (String × String)) (k v : String) :
    assocGet (assocSet m k v) k = some v := by
  induction m with
  | nil => simp [assocSet, assocGet]
  | cons p rest ih =>
    obtain ⟨k1, v1⟩ := p
    by_cases hk : k1 = k
    · simp [assocSet, assocGet, hk]
    · simp only [assocSet, hk, if_false, assocGet]
      exact ih

theorem writeResults_getLast (k : String) (results : List AnalysisResult) :
    ∀ (annots : List (String × String)) (d : AnalysisResult),
      results.getLast? = some d →
      assocGet (writeResults annots k results) k = some d.details := by
  induction results with
  | nil =>
    intro annots d hd
    simp [List.getLast?] at hd
  | cons r rs ih =>
    intro annots d hd
    cases rs with
    | nil =>
      simp only [List.getLast?_singleton, Option.some.injEq] at hd
      subst hd
      simp only [writeResults]
      exact assocGet_assocSet_self annots k r.details
    | cons r2 rs2 =>
      rw [List.getLast?_cons_cons] at hd
      simp only [writeResults]
      exact ih (assocSet annots k r.details) d hd

theorem alertLoop_alertsOut_length (analyze : AnalyzeRequest → Except String AnalyzeResponse)
    (k : String) (alerts : List Alert) :
    ∀ req : AnalyzeRequest,
      (alertLoop analyze k req alerts).alertsOut.length = alerts.length := by
  induction alerts with
  | nil => intro req; rfl
  | cons a rest ih =>
    intro req
    cases h : analyze (updateNs req a) with
    | error e => simp [alertLoop, h]
    | ok resp =>
      simp only [alertLoop, h, List.length_cons]
      rw [ih (updateNs req a)]

theorem alertLoop_error_calls_pos (analyze : AnalyzeRequest → Except String AnalyzeResponse)
    (k : String) (alerts : List Alert) :
    ∀ (req : AnalyzeRequest) (msg : String),
      (alertLoop analyze k req alerts).errMsg = some msg →
      1 ≤ (alertLoop analyze k req alerts).calls.length := by
  induction alerts with
  | nil => intro req msg hm; simp [alertLoop] at hm
  | cons a rest ih =>
    intro req msg hm
    cases h : analyze (updateNs req a) with
    | error e => simp [alertLoop, h]
    | ok resp => simp [alertLoop, h]

theorem alertLoop_error_msg (analyze : AnalyzeRequest → Except String AnalyzeResponse)
    (k : String) (alerts : List Alert) :
    ∀ (req : AnalyzeRequest) (msg : String),
      (alertLoop analyze k req alerts).errMsg = some msg →
      ∃ r e, msg = "analyze. err: " ++ e ∧
        (alertLoop analyze k req alerts).calls.length ≤ alerts.length ∧
        (alertLoop analyze k req alerts).calls[(alertLoop analyze k req alerts).calls.length - 1]?
          = some r ∧
        analyze r = Except.error e := by
  induction alerts with
  | nil => intro req msg hm; simp [alertLoop] at hm
  | cons a rest ih =>
    intro req msg hm
    cases h : analyze (updateNs req a) with
    | error e =>
      simp only [alertLoop, h, Option.some.injEq] at hm
      refine ⟨updateNs req a, e, hm.symm, ?_, ?_, h⟩
      · simp [alertLoop, h]
      · simp [alertLoop, h]
    | ok resp =>
      simp only [alertLoop, h] at hm
      obtain ⟨r, e, hmsg, hlen, hget, herr⟩ := ih (updateNs req a) msg hm
      have hpos : 1 ≤ (alertLoop analyze k (updateNs req a) rest).calls.length :=
        alertLoop_error_calls_pos analyze k rest (updateNs req a) msg hm
      refine ⟨r, e, hmsg, ?_, ?_, herr⟩
      · simp only [alertLoop, h, List.length_cons]
        omega
      · simp only [alertLoop, h, List.length_cons, Nat.add_sub_cancel]
        have hsucc : (alertLoop analyze k (updateNs req a) rest).calls.length
            = ((alertLoop analyze k (updateNs req a) rest).calls.length - 1) + 1 := by omega
        rw [hsucc, List.getElem?_cons_succ]
        exact hget

theorem alertLoop_error_tail (analyze : AnalyzeRequest → Except String AnalyzeResponse)
    (k : String) (alerts : List Alert) :
    ∀ (req : AnalyzeRequest) (msg : String),
      (alertLoop analyze k req alerts).errMsg = some msg →
      ∀ j, (alertLoop analyze k req alerts).calls.length - 1 ≤ j →
        (alertLoop analyze k req alerts).alertsOut[j]? = alerts[j]? := by
  induction alerts with
  | nil => intro req msg hm; simp [alertLoop] at hm
  | cons a rest ih =>
    intro req msg hm j hj
    cases h : analyze (updateNs req a) with
    | error e => simp [alertLoop, h]
    | ok resp =>
      simp only [alertLoop, h] at hm hj ⊢
      have hpos : 1 ≤ (alertLoop analyze k (updateNs req a) rest).calls.length :=
        alertLoop_error_calls_pos analyze k rest (updateNs req a) msg hm
      simp only [List.length_cons, Nat.add_sub_cancel] at hj
      cases j with
      | zero => omega
      | succ j2 =>
        simp only [List.getElem?_cons_succ]
        exact ih (updateNs req a) msg hm j2 (by omega)

theorem alertLoop_processed_ok (analyze : AnalyzeRequest → Except String AnalyzeResponse)
    (k : String) (alerts : List Alert) :
    ∀ (req : AnalyzeRequest) (j : Nat),
      j + 1 < (alertLoop analyze k req alerts).calls.length →
      ∃ a r resp, alerts[j]? = some a ∧
        (alertLoop analyze k req alerts).calls[j]? = some r ∧
        analyze r = Except.ok resp ∧
        (alertLoop analyze k req alerts).alertsOut[j]? = some (mutateAlert k resp a) := by
  induction alerts with
  | nil => intro req j hj; simp [alertLoop] at hj
  | cons a rest ih =>
    intro req j hj
    cases h : analyze (updateNs req a) with
    | error e =>
      simp only [alertLoop, h, List.length_cons, List.length_nil] at hj
      omega
    | ok resp =>
      simp only [alertLoop, h, List.length_cons] at hj
      cases j with
      | zero =>
        exact ⟨a, updateNs req a, resp, by simp, by simp [alertLoop, h], h,
          by simp [alertLoop, h]⟩
      | succ j2 =>
        obtain ⟨a2, r2, resp2, ha, hr, hok, hout⟩ :=
          ih (updateNs req a) j2 (by omega)
        exact ⟨a2, r2, resp2, by simpa using ha, by simp [alertLoop, h, hr],
          hok, by simp [alertLoop, h, hout]⟩

theorem serve_state (cfg : ConfigState) (env : ServeEnv) (hb : env.bindResult = none) :
    (serve cfg env).2
      = { cfg with
          configHandler := some HandlerVal.emptyFresh,
          analyzeHandler := some HandlerVal.emptyFresh,
          listener := some { closed := false } } := by
  simp only [serve, hb]
  by_cases hh : cfg.enableHttp
  · simp only [hh, if_true]
    cases env.gwRegisterConfig <;> cases env.gwRegisterAnalyzer <;>
      cases env.httpServeResult <;> rfl
  · simp only [hh, if_false]
    cases henv : env.grpcServeResult with
    | none => rfl
    | some e => by_cases he : e = GoError.errServerClosed <;> simp [he]

/-! ## The claims -/

/-- C1: a request is routed to the RPC dispatcher iff its protocol major
version is 2 and its Content-Type header contains `"application/grpc"`;
every other request goes to the fallback handler; and the routing
decision is a pure function of the protocol version and the
Content-Type header alone. -/
theorem c1_mux_routing (r r2 : HttpRequest) :
    (grpcHandlerFunc r = MuxRoute.grpcDispatcher ↔
      (r.protoMajor = 2 ∧ stringContains r.contentType "application/grpc" = true)) ∧
    (grpcHandlerFunc r = MuxRoute.grpcDispatcher ∨ grpcHandlerFunc r = MuxRoute.fallback) ∧
    (r.protoMajor = r2.protoMajor → r.contentType = r2.contentType →
      grpcHandlerFunc r = grpcHandlerFunc r2) := by
  refine ⟨?_, ?_, ?_⟩
  · unfold grpcHandlerFunc
    split
    · simp_all
    · simp_all
  · unfold grpcHandlerFunc
    split
    · exact Or.inl rfl
    · exact Or.inr rfl
  · intro h1 h2
    unfold grpcHandlerFunc
    rw [h1, h2]

/-- Witness for C1 at a concrete pair of requests: an HTTP/2 request with
a gRPC Content-Type goes to the dispatcher, and a request differing only
in path and body is routed identically. -/
theorem c1_mux_routing_witness :
    grpcHandlerFunc ⟨2, "application/grpc+proto", "/a", ""⟩ = MuxRoute.grpcDispatcher ∧
    grpcHandlerFunc ⟨2, "application/grpc+proto", "/a", ""⟩
      = grpcHandlerFunc ⟨2, "application/grpc+proto", "/b", "x"⟩ := by
  have h := c1_mux_routing ⟨2, "application/grpc+proto", "/a", ""⟩
    ⟨2, "application/grpc+proto", "/b", "x"⟩
  exact ⟨h.1.mpr (by decide), h.2.2 rfl rfl⟩

/-- C4: when the webhook body fails to decode, the handler writes a
plain-text decode-error description, issues no analysis call, sets no
explicit HTTP status, and does no further processing. -/
theorem c4_decode_failure (analyze : AnalyzeRequest → Except String AnalyzeResponse)
    (q : AlertsHttpRequest) (e : String)
    (hd : q.decodedBody = Except.error e) :
    (serveAlerts analyze q).responseBody = "decode alerts. err: " ++ e ∧
    (serveAlerts analyze q).calls = [] ∧
    (serveAlerts analyze q).explicitStatus = none ∧
    (serveAlerts analyze q).alertsOut = [] := by
  simp [serveAlerts, hd]

/-- Witness for C4: a concrete malformed-body call. -/
theorem c4_decode_failure_witness :
    (serveAlerts okEmptyAnalyze badBodyRequest).responseBody
      = "decode alerts. err: invalid character" ∧
    (serveAlerts okEmptyAnalyze badBodyRequest).calls = [] ∧
    (serveAlerts okEmptyAnalyze badBodyRequest).explicitStatus = none ∧
    (serveAlerts okEmptyAnalyze badBodyRequest).alertsOut = [] :=
  c4_decode_failure okEmptyAnalyze badBodyRequest "invalid character" rfl

/-- C7: the metrics handler answers `/healthz` with status 200 and an
empty body regardless of the health snapshot or backend, delegates
`/metrics` to the Prometheus exposition handler, and answers any other
path with 404. -/
theorem c7_metrics_routing (hl : Health) (backend : String) (path : String) :
    (path = "/healthz" → serveMetricsHandler hl backend path
        = { status := some 200, body := "", delegated := false }) ∧
    (path = "/metrics" → serveMetricsHandler hl backend path
        = { status := none, body := "", delegated := true }) ∧
    (path ≠ "/healthz" → path ≠ "/metrics" → serveMetricsHandler hl backend path
        = { status := some 404, body := "", delegated := false }) ∧
    (∀ (hl2 : Health) (backend2 : String),
      serveMetricsHandler hl backend path = serveMetricsHandler hl2 backend2 path) := by
  refine ⟨?_, ?_, ?_, ?_⟩
  · intro h; simp [serveMetricsHandler, h]
  · intro h; simp [serveMetricsHandler, h]
  · intro h1 h2; simp [serveMetricsHandler, h1, h2]
  · intro hl2 backend2; rfl

/-- Witness for C7: `/healthz` gives 200 with empty body even with a
failing health snapshot, and `/unknown` gives 404. -/
theorem c7_metrics_routing_witness :
    serveMetricsHandler { status := "down", success := 0, failure := 5 } "openai" "/healthz"
      = { status := some 200, body := "", delegated := false } ∧
    serveMetricsHandler healthInit "openai" "/unknown"
      = { status := some 404, body := "", delegated := false } := by
  refine ⟨?_, ?_⟩
  · exact (c7_metrics_routing { status := "down", success := 0, failure := 5 }
      "openai" "/healthz").1 rfl
  · exact (c7_metrics_routing healthInit "openai" "/unknown").2.2.1
      (by decide) (by decide)

/-- C2 counterexample: in the batch `[alert with namespace label "ns1",
alert with no namespace label]` (all analyses succeed), the request
passed for the second alert carries namespace `"ns1"`, not the empty
string the claim requires — the single shared `analyzeRequest` keeps the
value set by the first alert. -/
theorem c2_namespace_counterexample :
    (serveAlerts okEmptyAnalyze c2Request).calls.map AnalyzeRequest.ns = ["ns1", "ns1"] ∧
    ¬ (serveAlerts okEmptyAnalyze c2Request).calls.map AnalyzeRequest.ns = ["ns1", ""] := by
  decide

/-- C2 amended: the request passed for each alert has namespace equal to
the alert's `"namespace"` label when present; when absent it retains the
previous value — the label of the most recent earlier alert in the batch
that had one, or empty if none — because one `AnalyzeRequest` object is
reused across the batch (`stickyNs ""` is exactly that sequence; the
`take` accounts for a batch aborted by an analysis failure). -/
theorem c2_namespace_amended (analyze : AnalyzeRequest → Except String AnalyzeResponse)
    (q : AlertsHttpRequest) (alerts : List Alert)
    (hd : q.decodedBody = Except.ok alerts) :
    (serveAlerts analyze q).calls.map AnalyzeRequest.ns
      = (stickyNs "" alerts).take ((serveAlerts analyze q).calls.length) := by
  have hcalls : (serveAlerts analyze q).calls
      = (alertLoop analyze q.annotationKey (baseRequest q) alerts).calls := by
    simp [serveAlerts, hd]
  rw [hcalls, alertLoop_calls_take analyze q.annotationKey alerts (baseRequest q),
    List.map_take, reqSeq_map_ns alerts (baseRequest q)]
  rw [← alertLoop_calls_take analyze q.annotationKey alerts (baseRequest q)]
  rfl

/-- Witness for C2 amended at the two-alert batch: both calls carry
namespace `"ns1"`, matching the sticky sequence. -/
theorem c2_namespace_amended_witness :
    (serveAlerts okEmptyAnalyze c2Request).calls.map AnalyzeRequest.ns
      = (stickyNs "" [nsAlert "ns1", bareAlert]).take
          ((serveAlerts okEmptyAnalyze c2Request).calls.length) :=
  c2_namespace_amended okEmptyAnalyze c2Request [nsAlert "ns1", bareAlert] rfl

/-- C3 counterexample: with the REST gateway enabled, a serve call ending
in the expected "server closed" error is returned to the caller rather
than suppressed — only the REST-disabled branch filters
`http.ErrServerClosed`. -/
theorem c3_serve_error_counterexample :
    (serve httpModeConfig closedHttpEnv).1
      = ServeOutcome.returned (some GoError.errServerClosed) ∧
    ¬ (serve httpModeConfig closedHttpEnv).1 = ServeOutcome.returned none := by
  decide

/-- C3 amended: an error from serving on the listener is returned to the
caller, except that in REST-disabled mode the expected "server closed"
error is suppressed and `Serve` returns nil; in REST-enabled mode no
suppression happens — every serve error, the "server closed" sentinel
included, is returned. -/
theorem c3_serve_errors_amended (cfg : ConfigState) (env : ServeEnv) (e : GoError)
    (hb : env.bindResult = none) :
    (cfg.enableHttp = false → env.grpcServeResult = some e →
      (serve cfg env).1 = (if e = GoError.errServerClosed then ServeOutcome.returned none
        else ServeOutcome.returned (some e))) ∧
    (cfg.enableHttp = false → env.grpcServeResult = none →
      (serve cfg env).1 = ServeOutcome.returned none) ∧
    (cfg.enableHttp = true → env.gwRegisterConfig = none → env.gwRegisterAnalyzer = none →
      env.httpServeResult = some e →
      (serve cfg env).1 = ServeOutcome.returned (some e)) := by
  refine ⟨?_, ?_, ?_⟩
  · intro hh hg
    simp only [serve, hb, hh, hg, Bool.false_eq_true, if_false]
    by_cases he : e = GoError.errServerClosed <;> simp [he]
  · intro hh hg
    simp [serve, hb, hh, hg]
  · intro hh h1 h2 h3
    simp [serve, hb, hh, h1, h2, h3]

/-- Witness for C3 amended: in gRPC-only mode the "server closed" outcome
is reported as success. -/
theorem c3_serve_errors_amended_witness :
    (serve defaultConfig grpcClosedEnv).1 = ServeOutcome.returned none := by
  have h := (c3_serve_errors_amended defaultConfig grpcClosedEnv
    GoError.errServerClosed rfl).1 rfl rfl
  simpa using h

/-- C5: alerts of a batch are processed strictly in order, and when the
analysis call for some alert fails the error text becomes the response,
the failing and all later alerts are left untouched while the annotation
mutations of every earlier alert are kept (no rollback) — the content of
`batchAbortSpec`. -/
theorem c5_batch_abort (analyze : AnalyzeRequest → Except String AnalyzeResponse)
    (q : AlertsHttpRequest) (alerts : List Alert) (msg : String)
    (hd : q.decodedBody = Except.ok alerts)
    (herr : (alertLoop analyze q.annotationKey (baseRequest q) alerts).errMsg = some msg) :
    batchAbortSpec analyze q alerts msg := by
  have hs : serveAlerts analyze q
      = { responseBody :=
            ((alertLoop analyze q.annotationKey (baseRequest q) alerts).errMsg).getD "",
          explicitStatus := none,
          calls := (alertLoop analyze q.annotationKey (baseRequest q) alerts).calls,
          alertsOut := (alertLoop analyze q.annotationKey (baseRequest q) alerts).alertsOut } := by
    simp [serveAlerts, hd]
  obtain ⟨r0, e0, hmsg, hle, hget, herr0⟩ :=
    alertLoop_error_msg analyze q.annotationKey alerts (baseRequest q) msg herr
  have hpos := alertLoop_error_calls_pos analyze q.annotationKey alerts (baseRequest q) msg herr
  refine ⟨?_, ⟨e0, hmsg⟩, ?_, ?_, ?_, ?_, ?_, ?_⟩
  · rw [hs]
    simp [herr]
  · rw [hs]
    exact alertLoop_calls_take analyze q.annotationKey alerts (baseRequest q)
  · rw [hs]
    exact hpos
  · rw [hs]
    exact hle
  · rw [hs]
    exact alertLoop_alertsOut_length analyze q.annotationKey alerts (baseRequest q)
  · rw [hs]
    exact alertLoop_error_tail analyze q.annotationKey alerts (baseRequest q) msg herr
  · rw [hs]
    exact fun j => alertLoop_processed_ok analyze q.annotationKey alerts (baseRequest q) j

/-- Witness for C5: in the two-alert batch where the first analysis
succeeds and the second fails, the abort discipline holds concretely. -/
theorem c5_batch_abort_witness :
    batchAbortSpec failOnBad c5Request [nsAlert "good", nsAlert "bad"] "analyze. err: boom" :=
  c5_batch_abort failOnBad c5Request [nsAlert "good", nsAlert "bad"]
    "analyze. err: boom" rfl (by decide)

/-- C6: when the analysis call for an alert succeeds, each result's
details string is written into that alert's annotation map under the
`annotation` query-parameter key in order (overwriting), so the key ends
up holding the last result's details. -/
theorem c6_annotation_write (analyze : AnalyzeRequest → Except String AnalyzeResponse)
    (q : AlertsHttpRequest) (alerts : List Alert) (j : Nat) (a : Alert)
    (r : AnalyzeRequest) (resp : AnalyzeResponse)
    (hd : q.decodedBody = Except.ok alerts)
    (ha : alerts[j]? = some a)
    (hr : (serveAlerts analyze q).calls[j]? = some r)
    (hok : analyze r = Except.ok resp) :
    (serveAlerts analyze q).alertsOut[j]? = some (mutateAlert q.annotationKey resp a) ∧
    (mutateAlert q.annotationKey resp a).annotations
      = writeResults a.annotations q.annotationKey resp.results ∧
    (∀ d, resp.results.getLast? = some d →
      assocGet (mutateAlert q.annotationKey resp a).annotations q.annotationKey
        = some d.details) := by
  have hs : serveAlerts analyze q
      = { responseBody :=
            ((alertLoop analyze q.annotationKey (baseRequest q) alerts).errMsg).getD "",
          explicitStatus := none,
          calls := (alertLoop analyze q.annotationKey (baseRequest q) alerts).calls,
          alertsOut := (alertLoop analyze q.annotationKey (baseRequest q) alerts).alertsOut } := by
    simp [serveAlerts, hd]
  refine ⟨?_, rfl, ?_⟩
  · rw [hs] at hr ⊢
    exact alertLoop_ok_at analyze q.annotationKey alerts (baseRequest q) j a r resp ha hr hok
  · intro d hlast
    exact writeResults_getLast q.annotationKey resp.results a.annotations d hlast

/-- Witness for C6: one alert with an existing `summary` annotation, two
results — the annotation ends up as the second result's details. -/
theorem c6_annotation_write_witness :
    assocGet (mutateAlert "summary"
        { results := [{ details := "first" }, { details := "pod crashlooping" }] }
        c6Alert).annotations "summary" = some "pod crashlooping" := by
  have h := c6_annotation_write twoResultAnalyze c6Request [c6Alert] 0 c6Alert
    { backend := "openai", language := "", filters := [], ns := "prod",
      nocache := true, explain := true }
    { results := [{ details := "first" }, { details := "pod crashlooping" }] }
    rfl (by decide) (by decide) rfl
  exact h.2.2 { details := "pod crashlooping" } (by decide)

/-- C8: with REST-gateway mode enabled, failure of either gateway
registration call makes `Serve` abort the process via `log.Fatalln`
instead of returning an error to its caller. -/
theorem c8_gateway_registration_fatal (cfg : ConfigState) (env : ServeEnv) (msg : String)
    (hb : env.bindResult = none) (hh : cfg.enableHttp = true)
    (hfail : env.gwRegisterConfig = some msg ∨
      (env.gwRegisterConfig = none ∧ env.gwRegisterAnalyzer = some msg)) :
    (serve cfg env).1 = ServeOutcome.fatalExit ("Failed to register gateway: " ++ msg) ∧
    ∀ e, (serve cfg env).1 ≠ ServeOutcome.returned e := by
  have hout : (serve cfg env).1
      = ServeOutcome.fatalExit ("Failed to register gateway: " ++ msg) := by
    rcases hfail with h1 | ⟨h1, h2⟩
    · simp [serve, hb, hh, h1]
    · simp [serve, hb, hh, h1, h2]
  refine ⟨hout, fun e hcontra => ?_⟩
  rw [hout] at hcontra
  exact ServeOutcome.noConfusion hcontra

/-- Witness for C8: a concrete failing first registration ends in the
fatal exit. -/
theorem c8_gateway_registration_fatal_witness :
    (serve httpModeConfig gwFailEnv).1
      = ServeOutcome.fatalExit ("Failed to register gateway: " ++ "connection refused") :=
  (c8_gateway_registration_fatal httpModeConfig gwFailEnv "connection refused"
    rfl rfl (Or.inl rfl)).1

/-- C9: once `Serve` has bound the listener, one `Shutdown` call closes it
successfully, any later accept on the closed listener fails with a
use-of-closed error, and a second `Shutdown` call returns (with the
already-closed error) instead of panicking. -/
theorem c9_shutdown_safe (cfg : ConfigState) (env : ServeEnv)
    (hb : env.bindResult = none) :
    ∃ cfg1, shutdown (serve cfg env).2 = some (cfg1, none) ∧
      cfg1.listener = some { closed := true } ∧
      acceptOn { closed := true }
        = Except.error (GoError.other "use of closed network connection") ∧
      ∃ cfg2, shutdown cfg1
        = some (cfg2, some (GoError.other "use of closed network connection")) := by
  rw [serve_state cfg env hb]
  exact ⟨_, rfl, rfl, rfl, _, rfl⟩

/-- Witness for C9 at a concrete configuration and environment. -/
theorem c9_shutdown_safe_witness :
    ∃ cfg1, shutdown (serve defaultConfig allOkEnv).2 = some (cfg1, none) ∧
      cfg1.listener = some { closed := true } ∧
      acceptOn { closed := true }
        = Except.error (GoError.other "use of closed network connection") ∧
      ∃ cfg2, shutdown cfg1
        = some (cfg2, some (GoError.other "use of closed network connection")) :=
  c9_shutdown_safe defaultConfig allOkEnv rfl

/-- C10 counterexample: when the listener bind fails, `Serve` returns
before touching the handler fields, so a caller-supplied analyze handler
is retained, contradicting the claimed unconditional replacement. -/
theorem c10_handlers_counterexample :
    (serve suppliedConfig bindFailEnv).2.analyzeHandler = some (HandlerVal.supplied 7) ∧
    ¬ (serve suppliedConfig bindFailEnv).2.analyzeHandler = some HandlerVal.emptyFresh := by
  decide

/-- C10 amended: whenever the listener bind succeeds, `Serve` overwrites
both handler fields with freshly constructed empty instances (discarding
any supplied implementation), the webhook path's analysis dispatch then
goes through that installed handler, and the zero-value `Config` on
which `Serve` never ran has no analysis handler installed. -/
theorem c10_handlers_amended (cfg : ConfigState) (env : ServeEnv)
    (sem : HandlerVal → AnalyzeRequest → Except String AnalyzeResponse)
    (hb : env.bindResult = none) :
    (serve cfg env).2.configHandler = some HandlerVal.emptyFresh ∧
    (serve cfg env).2.analyzeHandler = some HandlerVal.emptyFresh ∧
    (∀ t, cfg.analyzeHandler = some (HandlerVal.supplied t) →
      (serve cfg env).2.analyzeHandler ≠ cfg.analyzeHandler) ∧
    webhookAnalyzeFn sem (serve cfg env).2 = some (sem HandlerVal.emptyFresh) ∧
    webhookAnalyzeFn sem defaultConfig = none := by
  rw [serve_state cfg env hb]
  refine ⟨rfl, rfl, ?_, rfl, rfl⟩
  intro t ht hcontra
  rw [ht] at hcontra
  simp at hcontra

/-- Witness for C10 amended: `Serve` on a config with supplied handlers
installs the fresh empty analyze handler; the zero-value config exposes
none to the webhook path. -/
theorem c10_handlers_amended_witness :
    (serve suppliedConfig allOkEnv).2.analyzeHandler = some HandlerVal.emptyFresh ∧
    webhookAnalyzeFn (fun v => okEmptyAnalyze) defaultConfig = none := by
  have h := c10_handlers_amended suppliedConfig allOkEnv (fun v => okEmptyAnalyze) rfl
  exact ⟨h.2.1, h.2.2.2.2⟩

end K8sgpt
